import Mathlib

/-!
Shallow embedding of the dota2api client wrapper (src/dota2api/__init__.py)
and verification of the specified properties of its aggregation core.

Modelling conventions:
  * Python ints are unbounded, so match ids, cursors and result counters are
    embedded as `Int` (counters compared with `> 0` exactly as the source does).
  * Exceptions are embedded as `Except`: `ApiError` for the two API errors the
    wrapper raises (`APIAuthenticationError` on 403, `APITimeoutError` on 503),
    and `PyErr` for the runtime errors the aggregation walk can raise
    (an unbound local variable, an index error on an empty list) together with
    propagated API errors.
  * The HTTP executor is an injected collaborator (exactly as in the source,
    where `Initialise` takes an `executor` argument); for the retry layer it is
    indexed by the attempt number so that an attempt-varying upstream can be
    expressed.  Response bodies are modelled as already-parsed values, since
    JSON parsing (`response.build`) is outside the claims.
  * For the page walk, the upstream history endpoint is modelled as a script: a
    list of successfully parsed pages consumed one per request.  The walk also
    records the trace of history requests and detail requests it issues, so
    that properties about the requests themselves (cursor values, filters,
    request counts) can be stated.  Running out of scripted pages is the
    `noResponse` error; the walk's unbounded `while` loop is driven by fuel,
    with `outOfFuel` marking exhaustion.
-/

namespace Dota2Api

/-- Claim-relevant part of a match summary as returned inside a history page;
its identity is the `match_id` field (a Python int, hence `Int`). -/
structure MatchSummary where
  match_id : Int
deriving DecidableEq, Repr

/-- A full match detail record as returned by the match-details endpoint. The
payload stands for the rest of the parsed body, which the wrapper never
inspects. -/
structure MatchDetail where
  match_id : Int
  payload : Nat
deriving DecidableEq, Repr

/-- One parsed page of match history, with the fields the aggregation walk
reads: `matches`, `total_results`, `results_remaining` and `num_results`. -/
structure HistoryPage where
  «matches» : List MatchSummary
  total_results : Int
  results_remaining : Int
  num_results : Int
deriving DecidableEq, Repr

/-- The query parameters of one GetMatchHistory request that the aggregation
logic controls: the pagination cursor `start_at_match_id`, the `account_id`
filter, and the optional `hero_id` category filter (passed through `kwargs`
in the source).  A `none` field is a parameter that was not supplied. -/
structure HistRequest where
  start_at_match_id : Option Int
  account_id : Option Int
  hero_id : Option Int
deriving DecidableEq, Repr

/-- A hero entry from the reference lookup (`get_heroes`); only the id is used
by the aggregation walk. -/
structure Hero where
  id : Int
deriving DecidableEq, Repr

/-- An HTTP response as the wrapper sees it: a status code and a body, the
body already parsed into the structured value `response.build` would return. -/
structure HttpResponse (α : Type) where
  status_code : Nat
  body : α
deriving DecidableEq, Repr

/-- The two API errors raised by `Initialise.__check_http_err`:
`auth` is `APIAuthenticationError` (HTTP 403) and `timeout` is
`APITimeoutError` (HTTP 503). -/
inductive ApiError where
  | auth
  | timeout
deriving DecidableEq, Repr

/-- Embeds `Initialise.__check_http_err` (lines 323-330): raises
`APIAuthenticationError` on status 403, `APITimeoutError` on status 503, and
otherwise returns `False`, i.e. signals no error (`none`). -/
def check_http_err (status_code : Nat) : Option ApiError :=
  if status_code = 403 then some ApiError.auth
  else if status_code = 503 then some ApiError.timeout
  else none

/-- Embeds `Initialise.get_match_history` (lines 136-164): call the executor,
raise via `__check_http_err` on 403/503, otherwise return the parsed body. -/
def get_match_history (executor : HistRequest → HttpResponse HistoryPage)
    (req : HistRequest) : Except ApiError HistoryPage :=
  match check_http_err (executor req).status_code with
  | some e => Except.error e
  | none => Except.ok (executor req).body

/-- Embeds `Initialise.get_match_details` (lines 183-196): same dispatch as
`get_match_history`, keyed by `match_id`. -/
def get_match_details (executor : Int → HttpResponse MatchDetail)
    (match_id : Int) : Except ApiError MatchDetail :=
  match check_http_err (executor match_id).status_code with
  | some e => Except.error e
  | none => Except.ok (executor match_id).body

/-- Embeds the `retrying` library's `@retry` decorator as configured at lines
124 and 130: `stop_max_attempt_number=5` and no `retry_on_exception`
predicate, which by the library's documented default retries on ANY raised
exception and, once attempts are exhausted, re-raises the last exception
unmodified (`wrap_exception` defaults to `False`).  The randomized backoff
delay is a pure timing concern and is not modelled.  The operation is indexed
by the attempt number (0-based), modelling a stateful upstream; the result is
paired with the number of attempts actually made.  The second argument is the
number of attempts already made, the third the number of retries still allowed
after the current attempt. -/
def retryAttempts {α : Type} (op : Nat → Except ApiError α) (made : Nat) :
    Nat → Except ApiError α × Nat
  | 0 => (op made, made + 1)
  | Nat.succ n =>
    match op made with
    | Except.ok v => (Except.ok v, made + 1)
    | Except.error _ => retryAttempts op (made + 1) n

/-- Embeds `Initialise.get_match_history_and_retry_on_failure` (lines
124-128): `get_match_history` wrapped by the retry decorator with a maximum
of 5 attempts. -/
def get_match_history_and_retry_on_failure
    (executors : Nat → HistRequest → HttpResponse HistoryPage)
    (req : HistRequest) : Except ApiError HistoryPage × Nat :=
  retryAttempts (fun i => get_match_history (executors i) req) 0 4

/-- Embeds `Initialise.get_match_details_and_retry_on_failure` (lines
130-134): `get_match_details` wrapped by the retry decorator with a maximum
of 5 attempts. -/
def get_match_details_and_retry_on_failure
    (executors : Nat → Int → HttpResponse MatchDetail)
    (match_id : Int) : Except ApiError MatchDetail × Nat :=
  retryAttempts (fun i => get_match_details (executors i) match_id) 0 4

/-- Python truthiness of the `api_key` argument in `Initialise.__init__`:
`if api_key:` is true exactly when the argument is present and non-empty. -/
def apiKeyTruthy : Option String → Bool
  | none => false
  | some s => s != ""

/-- Embeds the credential resolution of `Initialise.__init__` (lines 35-41):
use `api_key` if truthy, else the `D2_API_KEY` environment variable if that
name is present in the environment (a membership test, not a truthiness
test), else raise `APIAuthenticationError`. -/
def initialiseApiKey (api_key : Option String) (envD2ApiKey : Option String) :
    Except ApiError String :=
  if apiKeyTruthy api_key then Except.ok (api_key.getD "")
  else
    match envD2ApiKey with
    | some v => Except.ok v
    | none => Except.error ApiError.auth

/-- The 64-bit steam id offset used by `convert_to_64_bit` (line 334). -/
def min64b : Int := 76561197960265728

/-- Embeds the module-level `convert_to_64_bit` (lines 333-337). -/
def convert_to_64_bit (number : Int) : Int :=
  if number < min64b then number + min64b else number

/-! ### Helper lemmas -/

/-- Dispatch behaviour of the `__check_http_err` pattern on an arbitrary
response: error `auth` exactly on 403, error `timeout` exactly on 503,
otherwise the parsed body is returned. -/
theorem dispatch_cases {α : Type} (resp : HttpResponse α) :
    ((match check_http_err resp.status_code with
      | some e => (Except.error e : Except ApiError α)
      | none => Except.ok resp.body) = Except.error ApiError.auth ↔
        resp.status_code = 403) ∧
    ((match check_http_err resp.status_code with
      | some e => (Except.error e : Except ApiError α)
      | none => Except.ok resp.body) = Except.error ApiError.timeout ↔
        resp.status_code = 503) ∧
    (resp.status_code ≠ 403 → resp.status_code ≠ 503 →
      (match check_http_err resp.status_code with
       | some e => (Except.error e : Except ApiError α)
       | none => Except.ok resp.body) = Except.ok resp.body) := by
  by_cases h1 : resp.status_code = 403
  · simp [check_http_err, h1]
  · by_cases h2 : resp.status_code = 503
    · simp [check_http_err, h1, h2]
    · simp [check_http_err, h1, h2]

/-- If the operation fails on every relevant attempt, `retryAttempts`
makes all allowed attempts and propagates the last failure. -/
theorem retryAttempts_const_error {α : Type} (op : Nat → Except ApiError α)
    (e : ApiError) :
    ∀ (n made : Nat), (∀ i, i ≤ n → op (made + i) = Except.error e) →
      retryAttempts op made n = (Except.error e, made + n + 1)
  | 0, made, h => by
      have h0 : op made = Except.error e := by simpa using h 0 (Nat.le_refl 0)
      simp [retryAttempts, h0]
  | Nat.succ n, made, h => by
      have h0 : op made = Except.error e := by simpa using h 0 (Nat.zero_le _)
      have ih := retryAttempts_const_error op e n (made + 1) (fun i hi => by
        have hstep := h (i + 1) (Nat.succ_le_succ hi)
        have harg : made + (i + 1) = made + 1 + i := by omega
        rw [harg] at hstep
        exact hstep)
      have harith : made + 1 + n + 1 = made + (n + 1) + 1 := by omega
      simp [retryAttempts, h0, ih, harith]

/-! ### Claim C7 -/

/-- Claim C7: for every HTTP status code returned by the executor, a fetch
operation raises `APIAuthenticationError` iff the status is 403, raises
`APITimeoutError` iff the status is 503, and for every other status raises
no error and returns the parsed response body; shown for both
`get_match_history` and `get_match_details`. -/
theorem C7_status_dispatch (executor : HistRequest → HttpResponse HistoryPage)
    (req : HistRequest) (dExec : Int → HttpResponse MatchDetail) (mid : Int) :
    (get_match_history executor req = Except.error ApiError.auth ↔
      (executor req).status_code = 403) ∧
    (get_match_history executor req = Except.error ApiError.timeout ↔
      (executor req).status_code = 503) ∧
    ((executor req).status_code ≠ 403 → (executor req).status_code ≠ 503 →
      get_match_history executor req = Except.ok (executor req).body) ∧
    (get_match_details dExec mid = Except.error ApiError.auth ↔
      (dExec mid).status_code = 403) ∧
    (get_match_details dExec mid = Except.error ApiError.timeout ↔
      (dExec mid).status_code = 503) ∧
    ((dExec mid).status_code ≠ 403 → (dExec mid).status_code ≠ 503 →
      get_match_details dExec mid = Except.ok (dExec mid).body) := by
  have hh := dispatch_cases (executor req)
  have hd := dispatch_cases (dExec mid)
  unfold get_match_history get_match_details
  exact ⟨hh.1, hh.2.1, hh.2.2, hd.1, hd.2.1, hd.2.2⟩

/-- A page used as a neutral response body in concrete scenarios. -/
def emptyPage : HistoryPage :=
  { «matches» := [], total_results := 0, results_remaining := 0, num_results := 0 }

/-- A concrete executor that always answers 200 with an empty page. -/
def exW200 : HistRequest → HttpResponse HistoryPage :=
  fun _ => { status_code := 200, body := emptyPage }

/-- A concrete detail executor that always answers 200. -/
def dxW200 : Int → HttpResponse MatchDetail :=
  fun i => { status_code := 200, body := { match_id := i, payload := 0 } }

/-- A concrete request used in witnesses. -/
def reqW : HistRequest :=
  { start_at_match_id := none, account_id := some 7, hero_id := none }

/-- Witness for C7 at a concrete executor and request: a 200 response is
returned as its parsed body, with no error. -/
theorem C7_status_dispatch_witness :
    get_match_history exW200 reqW = Except.ok emptyPage :=
  (C7_status_dispatch exW200 reqW dxW200 1).2.2.1 (by decide) (by decide)

/-! ### Claims C3 and C4 (retry policy) -/

/-- A concrete executor that always answers 403 (authentication failure). -/
def exAuth : Nat → HistRequest → HttpResponse HistoryPage :=
  fun _ _ => { status_code := 403, body := emptyPage }

/-- A concrete executor that always answers 503 (transient unavailability). -/
def exTimeout : Nat → HistRequest → HttpResponse HistoryPage :=
  fun _ _ => { status_code := 503, body := emptyPage }

/-- A concrete detail executor that always answers 403. -/
def dxAuth : Nat → Int → HttpResponse MatchDetail :=
  fun _ _ => { status_code := 403, body := { match_id := 0, payload := 0 } }

/-- A concrete detail executor that always answers 503. -/
def dxTimeout : Nat → Int → HttpResponse MatchDetail :=
  fun _ _ => { status_code := 503, body := { match_id := 0, payload := 0 } }

/-- Counterexample to claim C3 as stated: with an executor that always
answers 403 (`APIAuthenticationError`), the retry wrapper makes 5 attempts,
not exactly one — the decorator has no `retry_on_exception` predicate, so
authentication failures are retried like any other error. -/
theorem C3_auth_retried_counterexample :
    (get_match_history_and_retry_on_failure exAuth reqW).2 = 5 ∧
    (get_match_history_and_retry_on_failure exAuth reqW).2 ≠ 1 := by
  constructor
  · rfl
  · decide

/-- Claim C3 (amended): a fetch operation that raises `APIAuthenticationError`
on every attempt is retried exactly like a transient failure: the wrapper
makes the full 5 attempts and then propagates the authentication error. -/
theorem C3_auth_failure_retried_five_attempts
    (ex : Nat → HistRequest → HttpResponse HistoryPage) (req : HistRequest)
    (dx : Nat → Int → HttpResponse MatchDetail) (mid : Int)
    (hex : ∀ i, i ≤ 4 → (ex i req).status_code = 403)
    (hdx : ∀ i, i ≤ 4 → (dx i mid).status_code = 403) :
    get_match_history_and_retry_on_failure ex req = (Except.error ApiError.auth, 5) ∧
    get_match_details_and_retry_on_failure dx mid = (Except.error ApiError.auth, 5) := by
  constructor
  · have h := retryAttempts_const_error
      (fun i => get_match_history (ex i) req) ApiError.auth 4 0 (fun i hi => by
        have hs := hex i (by omega)
        simp [get_match_history, check_http_err, hs])
    simpa [get_match_history_and_retry_on_failure] using h
  · have h := retryAttempts_const_error
      (fun i => get_match_details (dx i) mid) ApiError.auth 4 0 (fun i hi => by
        have hs := hdx i (by omega)
        simp [get_match_details, check_http_err, hs])
    simpa [get_match_details_and_retry_on_failure] using h

/-- Witness for the amended C3 at the concrete always-403 executors. -/
theorem C3_auth_retry_witness :
    get_match_history_and_retry_on_failure exAuth reqW = (Except.error ApiError.auth, 5) ∧
    get_match_details_and_retry_on_failure dxAuth 1 = (Except.error ApiError.auth, 5) :=
  C3_auth_failure_retried_five_attempts exAuth reqW dxAuth 1
    (fun _ _ => rfl) (fun _ _ => rfl)

/-- Claim C4: a fetch operation that raises `APITimeoutError`
(TransientUnavailable) on every attempt is attempted exactly 5 times — the
configured maximum — after which the last failure propagates unmodified. -/
theorem C4_retry_bound_five_attempts
    (ex : Nat → HistRequest → HttpResponse HistoryPage) (req : HistRequest)
    (dx : Nat → Int → HttpResponse MatchDetail) (mid : Int)
    (hex : ∀ i, i ≤ 4 → (ex i req).status_code = 503)
    (hdx : ∀ i, i ≤ 4 → (dx i mid).status_code = 503) :
    get_match_history_and_retry_on_failure ex req = (Except.error ApiError.timeout, 5) ∧
    get_match_details_and_retry_on_failure dx mid = (Except.error ApiError.timeout, 5) := by
  constructor
  · have h := retryAttempts_const_error
      (fun i => get_match_history (ex i) req) ApiError.timeout 4 0 (fun i hi => by
        have hs := hex i (by omega)
        simp [get_match_history, check_http_err, hs])
    simpa [get_match_history_and_retry_on_failure] using h
  · have h := retryAttempts_const_error
      (fun i => get_match_details (dx i) mid) ApiError.timeout 4 0 (fun i hi => by
        have hs := hdx i (by omega)
        simp [get_match_details, check_http_err, hs])
    simpa [get_match_details_and_retry_on_failure] using h

/-- Witness for C4 at the concrete always-503 executors. -/
theorem C4_retry_bound_witness :
    get_match_history_and_retry_on_failure exTimeout reqW = (Except.error ApiError.timeout, 5) ∧
    get_match_details_and_retry_on_failure dxTimeout 1 = (Except.error ApiError.timeout, 5) :=
  C4_retry_bound_five_attempts exTimeout reqW dxTimeout 1
    (fun _ _ => rfl) (fun _ _ => rfl)

/-! ### Claim C8 (credential resolution) -/

/-- Counterexample to claim C8 as stated: the empty string is a supplied
`api_key` argument, yet construction still fails when the environment
variable is absent (Python truthiness of `if api_key:`), so "fails iff no
api_key argument is supplied and the environment variable is absent" does not
hold, nor does an explicitly supplied key always take precedence. -/
theorem C8_empty_key_counterexample :
    initialiseApiKey (some "") none = Except.error ApiError.auth ∧
    (some "" : Option String) ≠ none ∧
    initialiseApiKey (some "") (some "ENVKEY") = Except.ok "ENVKEY" := by
  refine ⟨rfl, by decide, rfl⟩

/-- Claim C8 (amended): construction fails iff the supplied `api_key` is
absent or empty (Python falsiness) and `D2_API_KEY` is absent from the
environment; a non-empty explicit `api_key` is always used, taking precedence
over the environment variable. -/
theorem C8_credential_resolution (api_key env : Option String) :
    (initialiseApiKey api_key env = Except.error ApiError.auth ↔
      ((api_key = none ∨ api_key = some "") ∧ env = none)) ∧
    (∀ k, api_key = some k → k ≠ "" →
      initialiseApiKey api_key env = Except.ok k) := by
  cases api_key with
  | none =>
      cases env with
      | none => simp [initialiseApiKey, apiKeyTruthy]
      | some v => simp [initialiseApiKey, apiKeyTruthy]
  | some s =>
      by_cases hs : s = ""
      · subst hs
        cases env with
        | none => simp [initialiseApiKey, apiKeyTruthy]
        | some v => simp [initialiseApiKey, apiKeyTruthy]
      · cases env with
        | none =>
            constructor
            · simp [initialiseApiKey, apiKeyTruthy, hs]
            · intro k hk hke
              have : k = s := by
                injection hk.symm
              subst this
              simp [initialiseApiKey, apiKeyTruthy, hs]
        | some v =>
            constructor
            · simp [initialiseApiKey, apiKeyTruthy, hs]
            · intro k hk hke
              have : k = s := by
                injection hk.symm
              subst this
              simp [initialiseApiKey, apiKeyTruthy, hs]

/-- Witness for the amended C8: a non-empty explicit key wins over the
environment variable; absence of both key and variable fails. -/
theorem C8_credential_witness :
    initialiseApiKey (some "mykey") (some "envkey") = Except.ok "mykey" ∧
    (initialiseApiKey none none = Except.error ApiError.auth ↔
      (((none : Option String) = none ∨ (none : Option String) = some "") ∧
        (none : Option String) = none)) :=
  ⟨(C8_credential_resolution (some "mykey") (some "envkey")).2 "mykey" rfl
      (by decide),
    (C8_credential_resolution none none).1⟩

/-! ### Claim C10 (convert_to_64_bit) -/

/-- Claim C10: `convert_to_64_bit` adds the 64-bit offset below it and is the
identity at or above it; consequently on non-negative inputs it is idempotent
and its result is at least the offset. -/
theorem C10_convert_spec (n : Int) :
    (n < min64b → convert_to_64_bit n = n + min64b) ∧
    (¬ n < min64b → convert_to_64_bit n = n) ∧
    (0 ≤ n → convert_to_64_bit (convert_to_64_bit n) = convert_to_64_bit n ∧
      min64b ≤ convert_to_64_bit n) := by
  unfold convert_to_64_bit min64b
  by_cases h : n < (76561197960265728 : Int)
  · refine ⟨fun _ => by simp [h], fun hc => absurd h hc, fun hn => ?_⟩
    simp only [if_pos h]
    constructor
    · have : ¬ n + (76561197960265728 : Int) < 76561197960265728 := by omega
      simp [this]
    · omega
  · refine ⟨fun hc => absurd hc h, fun _ => by simp [h], fun hn => ?_⟩
    simp only [if_neg h]
    constructor
    · simp [h]
    · omega

/-- Witness for C10 at concrete inputs on both sides of the offset. -/
theorem C10_convert_witness :
    convert_to_64_bit 5 = 5 + min64b ∧
    min64b ≤ convert_to_64_bit 5 ∧
    convert_to_64_bit min64b = min64b :=
  ⟨(C10_convert_spec 5).1 (by decide),
    ((C10_convert_spec 5).2.2 (by decide)).2,
    (C10_convert_spec min64b).2.1 (by decide)⟩

/-! ### The aggregation walk (lines 61-122)

The upstream history endpoint is modelled as a script of parsed pages served
in order; the detail endpoint as a function of the match id (its outcome
stands for the retry-wrapped detail fetch).  Every function returns, besides
the result, the trace of history requests and detail requests it issued and
the unconsumed tail of the script. -/

/-- Runtime outcomes of the aggregation walk: `unboundLocal` is Python's
UnboundLocalError (reading `hist` when it was never assigned), `indexError`
is Python's IndexError (`hist['matches'][-1]` on an empty list), `api` is a
propagated API error, `noResponse` marks running past the scripted pages and
`outOfFuel` marks fuel exhaustion of the modelled `while` loop. -/
inductive PyErr where
  | unboundLocal
  | indexError
  | api (e : ApiError)
  | noResponse
  | outOfFuel
deriving DecidableEq, Repr

/-- The external collaborators of the walk other than the scripted history
pages: the (retry-wrapped) detail fetch and the hero reference lookup. -/
structure Upstream where
  detail : Int → Except ApiError MatchDetail
  heroes : List Hero

/-- Decidable equality for `Except`, needed to decide concrete walk
outcomes. -/
instance instDecEqExcept {ε α : Type} [DecidableEq ε] [DecidableEq α] :
    DecidableEq (Except ε α)
  | Except.error e, Except.error e' =>
    if h : e = e' then isTrue (by rw [h])
    else isFalse (fun hc => h (by injection hc))
  | Except.ok v, Except.ok v' =>
    if h : v = v' then isTrue (by rw [h])
    else isFalse (fun hc => h (by injection hc))
  | Except.error _, Except.ok _ => isFalse (fun hc => Except.noConfusion hc)
  | Except.ok _, Except.error _ => isFalse (fun hc => Except.noConfusion hc)

/-- Result of a walk together with its observable interaction trace:
the history requests issued in order, the match ids whose details were
requested in order, and the scripted pages not consumed. -/
structure WalkOut where
  result : Except PyErr (List MatchDetail)
  histReqs : List HistRequest
  detailReqs : List Int
  pagesLeft : List HistoryPage
deriving DecidableEq, Repr

/-- Embeds the inner `for eachMatch in ...` loop of
`__get_all_match_history_in_batches` (lines 81-84): fetch the details of each
summary of the page in order, propagating the first failure. -/
def detailLoop (up : Upstream) : List MatchSummary →
    Except PyErr (List MatchDetail) × List Int
  | [] => (Except.ok [], [])
  | m :: rest =>
    match up.detail m.match_id with
    | Except.error e => (Except.error (PyErr.api e), [m.match_id])
    | Except.ok d =>
      let out := detailLoop up rest
      (out.1.map (fun ds => d :: ds), m.match_id :: out.2)

/-- Embeds the `while remaining_matches > 0` loop of
`__get_all_match_history_in_batches` (lines 74-89).  `remaining` is the value
tested by the `while` condition (set from the previous page's
`results_remaining`, initially from `total_results`); each iteration fetches
details for the current page, computes the next cursor from the LAST summary
of the page (`hist['matches'][-1]['match_id'] - 1`, an IndexError when the
page is empty) and unconditionally fetches the next page — note that this
refetch passes only `start_at_match_id` and `account_id`, dropping the
`kwargs` (and with them any `hero_id` filter) of the initial request. -/
def batchLoop (up : Upstream) (accId : Option Int) (fuel : Nat)
    (hist : HistoryPage) (remaining : Int) (pages : List HistoryPage) :
    WalkOut :=
  if remaining ≤ 0 then
    { result := Except.ok [], histReqs := [], detailReqs := [],
      pagesLeft := pages }
  else
    match fuel with
    | 0 =>
      { result := Except.error PyErr.outOfFuel, histReqs := [],
        detailReqs := [], pagesLeft := pages }
    | Nat.succ fuel' =>
      let dout := detailLoop up hist.«matches»
      match dout.1 with
      | Except.error e =>
        { result := Except.error e, histReqs := [], detailReqs := dout.2,
          pagesLeft := pages }
      | Except.ok ds =>
        match hist.«matches».getLast? with
        | none =>
          { result := Except.error PyErr.indexError, histReqs := [],
            detailReqs := dout.2, pagesLeft := pages }
        | some lastM =>
          let req : HistRequest :=
            { start_at_match_id := some (lastM.match_id - 1),
              account_id := accId, hero_id := none }
          match pages with
          | [] =>
            { result := Except.error PyErr.noResponse, histReqs := [req],
              detailReqs := dout.2, pagesLeft := [] }
          | hist' :: pages' =>
            let out := batchLoop up accId fuel' hist' hist.results_remaining
              pages'
            { result := out.result.map (fun more => ds ++ more),
              histReqs := req :: out.histReqs,
              detailReqs := dout.2 ++ out.detailReqs,
              pagesLeft := out.pagesLeft }

/-- Embeds `Initialise.__get_all_match_history_in_batches` (lines 61-90).
When `initialHist` is `None` the first page is fetched with
`start_at_match_id = 0` (the freshly initialised `match_start_index`),
`account_id` and the `kwargs` (here: the optional `hero_id`).  When an
`initialHist` IS supplied, the source never assigns it to the local `hist`
(the `if initial_hist == None` branch is the only assignment), so the very
next line `hist['total_results']` raises UnboundLocalError. -/
def getAllMatchHistoryInBatches (up : Upstream) (accId : Option Int)
    (initialHist : Option HistoryPage) (heroId : Option Int)
    (pages : List HistoryPage) (fuel : Nat) : WalkOut :=
  match initialHist with
  | some _ =>
    { result := Except.error PyErr.unboundLocal, histReqs := [],
      detailReqs := [], pagesLeft := pages }
  | none =>
    let req : HistRequest :=
      { start_at_match_id := some 0, account_id := accId, hero_id := heroId }
    match pages with
    | [] =>
      { result := Except.error PyErr.noResponse, histReqs := [req],
        detailReqs := [], pagesLeft := [] }
    | hist :: pages' =>
      let out := batchLoop up accId fuel hist hist.total_results pages'
      { result := out.result, histReqs := req :: out.histReqs,
        detailReqs := out.detailReqs, pagesLeft := out.pagesLeft }

/-- Embeds the `for each_hero in ...` loop of the over-cap branch of
`get_all_matches_for_user` (lines 115-120): for each hero, run the batch walk
with `hero_id` in the kwargs and no initial page, extending the shared result
list; an error aborts the whole aggregation. -/
def heroLoop (up : Upstream) (accId : Int) (fuel : Nat) :
    List Hero → List HistoryPage → WalkOut
  | [], pages =>
    { result := Except.ok [], histReqs := [], detailReqs := [],
      pagesLeft := pages }
  | h :: hs, pages =>
    let out := getAllMatchHistoryInBatches up (some accId) none (some h.id)
      pages fuel
    match out.result with
    | Except.error e =>
      { result := Except.error e, histReqs := out.histReqs,
        detailReqs := out.detailReqs, pagesLeft := out.pagesLeft }
    | Except.ok ds =>
      let out2 := heroLoop up accId fuel hs out.pagesLeft
      { result := out2.result.map (fun more => ds ++ more),
        histReqs := out.histReqs ++ out2.histReqs,
        detailReqs := out.detailReqs ++ out2.detailReqs,
        pagesLeft := out2.pagesLeft }

/-- Embeds `Initialise.get_all_matches_for_user` (lines 93-122): fetch a first
unfiltered page; if `total_results < 500` run the batch walk passing that
page as `initial_hist`; otherwise fan out over the hero list, running one
batch walk per hero with the `hero_id` kwarg. -/
def get_all_matches_for_user (up : Upstream) (account_id : Int)
    (pages : List HistoryPage) (fuel : Nat) : WalkOut :=
  let req : HistRequest :=
    { start_at_match_id := none, account_id := some account_id,
      hero_id := none }
  match pages with
  | [] =>
    { result := Except.error PyErr.noResponse, histReqs := [req],
      detailReqs := [], pagesLeft := [] }
  | hist :: pages' =>
    if hist.total_results < 500 then
      let out := getAllMatchHistoryInBatches up (some account_id) (some hist)
        none pages' fuel
      { result := out.result, histReqs := req :: out.histReqs,
        detailReqs := out.detailReqs, pagesLeft := out.pagesLeft }
    else
      let out := heroLoop up account_id fuel up.heroes pages'
      { result := out.result, histReqs := req :: out.histReqs,
        detailReqs := out.detailReqs, pagesLeft := out.pagesLeft }

/-! ### Concrete scenarios for the walk claims -/

/-- A concrete detail record for each match id, used as a stand-in for the
parsed detail bodies in concrete scenarios. -/
def detailF : Int → MatchDetail := fun i => { match_id := i, payload := 0 }

/-- A concrete upstream whose detail endpoint always succeeds and whose hero
list has three heroes. -/
def upW : Upstream :=
  { detail := fun i => Except.ok (detailF i),
    heroes := [{ id := 1 }, { id := 2 }, { id := 3 }] }

/-- A first page reporting a single match in total (under the 500 cap). -/
def pC1 : HistoryPage :=
  { «matches» := [{ match_id := 10 }], total_results := 1,
    results_remaining := 0, num_results := 1 }

/-! ### Claim C1 -/

/-- Claim C1 (code bug): for a subject whose first unfiltered page reports
`total_results = 1 < 500`, the under-cap branch of `get_all_matches_for_user`
passes the first page as `initial_hist` to the batch walk, but the walk never
assigns `initial_hist` to its local `hist`, so instead of returning a
sequence of length `total_results` the call raises UnboundLocalError, having
fetched no details and issued no further page request. -/
theorem C1_under_cap_branch_raises_unbound_local :
    (get_all_matches_for_user upW 7 [pC1] 10).result =
      Except.error PyErr.unboundLocal ∧
    (get_all_matches_for_user upW 7 [pC1] 10).detailReqs = [] ∧
    (get_all_matches_for_user upW 7 [pC1] 10).histReqs =
      [{ start_at_match_id := none, account_id := some 7, hero_id := none }] := by
  decide

/-! ### Claim C2 -/

/-- First unfiltered page of an over-cap subject: 600 results in total. -/
def pC2top : HistoryPage :=
  { «matches» := [{ match_id := 1000 }], total_results := 600,
    results_remaining := 500, num_results := 100 }

/-- First page of hero 1's walk: one summary, 100 results remaining. -/
def pC2h1a : HistoryPage :=
  { «matches» := [{ match_id := 100 }], total_results := 200,
    results_remaining := 100, num_results := 1 }

/-- Second page of hero 1's walk: one summary, nothing remaining. -/
def pC2h1b : HistoryPage :=
  { «matches» := [{ match_id := 50 }], total_results := 200,
    results_remaining := 0, num_results := 1 }

/-- Third page served to hero 1's walk (fetched but not processed). -/
def pC2h1c : HistoryPage :=
  { «matches» := [{ match_id := 40 }], total_results := 200,
    results_remaining := 0, num_results := 1 }

/-- A page reporting no results at all (served to heroes 2 and 3). -/
def pZero : HistoryPage :=
  { «matches» := [], total_results := 0, results_remaining := 0,
    num_results := 0 }

/-- The scripted page sequence of the over-cap scenario. -/
def scriptC2 : List HistoryPage :=
  [pC2top, pC2h1a, pC2h1b, pC2h1c, pZero, pZero]

/-- Claim C2 (code bug): in the over-cap branch, the first page request of
hero 1's walk carries `hero_id = 1`, but the second page request of the same
walk — issued by the in-loop refetch, which drops the `kwargs` — carries no
`hero_id` at all, contradicting "every page request of that category's walk,
including the second and later pages, carries the category filter". -/
theorem C2_second_hero_page_request_drops_filter :
    (get_all_matches_for_user upW 7 scriptC2 10).histReqs.get? 1 =
      some { start_at_match_id := some 0, account_id := some 7,
             hero_id := some 1 } ∧
    (get_all_matches_for_user upW 7 scriptC2 10).histReqs.get? 2 =
      some { start_at_match_id := some 99, account_id := some 7,
             hero_id := none } ∧
    (get_all_matches_for_user upW 7 scriptC2 10).histReqs.get? 3 =
      some { start_at_match_id := some 49, account_id := some 7,
             hero_id := none } := by
  decide

/-! ### Counterexamples for claims C5 and C6 -/

/-- A page whose summaries are NOT in descending id order: the minimum id is
5, but the last listed id is 9. -/
def pC5 : HistoryPage :=
  { «matches» := [{ match_id := 5 }, { match_id := 9 }], total_results := 2,
    results_remaining := 0, num_results := 2 }

/-- Counterexample to claim C5 as stated: on the page listing ids `[5, 9]`
the cursor used for the next page request is `9 - 1 = 8` (the LAST summary's
id minus one), not `min - 1 = 4`, and it is not strictly less than the
minimum id 5 of the page. -/
theorem C5_cursor_not_min_counterexample :
    (getAllMatchHistoryInBatches upW (some 7) none none [pC5, pZero]
        10).histReqs.get? 1 =
      some { start_at_match_id := some 8, account_id := some 7,
             hero_id := none } ∧
    (8 : Int) ≠ 5 - 1 ∧ ¬ ((8 : Int) < 5) := by
  decide

/-- A page with zero matches whose `results_remaining` is 0 while
`total_results` is positive. -/
def pC6 : HistoryPage :=
  { «matches» := [], total_results := 3, results_remaining := 0,
    num_results := 0 }

/-- Counterexample to claim C6 as stated: when the page whose
`results_remaining` is 0 has zero matches, the walk does not terminate after
processing it — `hist['matches'][-1]` raises IndexError regardless of
`results_remaining`. -/
theorem C6_empty_final_page_counterexample :
    (getAllMatchHistoryInBatches upW (some 7) none none [pC6, pZero]
        10).result = Except.error PyErr.indexError := by
  decide

/-! ### The page-walk characterisation lemma -/

/-- A scripted page sequence on which the `while` loop runs to completion:
every page but the last reports a positive `results_remaining` and the last
reports 0 (or less), so the loop condition fails right after the last page. -/
def stopsAtEnd : List HistoryPage → Bool
  | [] => true
  | [p] => decide (p.results_remaining ≤ 0)
  | p :: q :: rest => decide (0 < p.results_remaining) && stopsAtEnd (q :: rest)

/-- The next-page request the loop issues after processing page `p`: cursor
`hist['matches'][-1]['match_id'] - 1`, the account filter, and no hero filter
(the refetch drops the kwargs). -/
def nextReq (accId : Option Int) (p : HistoryPage) : HistRequest :=
  { start_at_match_id :=
      some ((p.«matches».getLast?.map MatchSummary.match_id).getD 0 - 1),
    account_id := accId, hero_id := none }

/-- When every detail fetch succeeds, the inner detail loop returns the
details of the page's summaries in order and requests exactly their ids. -/
theorem detailLoop_ok (up : Upstream) (F : Int → MatchDetail)
    (hF : ∀ i, up.detail i = Except.ok (F i)) :
    ∀ ms : List MatchSummary,
      detailLoop up ms =
        (Except.ok (ms.map (fun m => F m.match_id)),
          ms.map MatchSummary.match_id)
  | [] => rfl
  | m :: rest => by
      have ih := detailLoop_ok up F hF rest
      simp [detailLoop, hF m.match_id, ih, Except.map]

/-- Characterisation of a complete run of the `while` loop on a scripted page
sequence.  If details always succeed, the processed pages `p0 :: tail` all
have at least one summary, the loop condition holds on entry, the
`results_remaining` chain stops exactly at the last processed page, and there
is fuel for each iteration, then the loop returns the details of the
processed pages' summaries in order, issues exactly one next-page request per
processed page (each with the last summary's id minus one as cursor and no
hero filter), requests exactly the processed summaries' details, and leaves
the script positioned after the one extra page `pextra` that the final
iteration fetched. -/
theorem batchLoop_script (up : Upstream) (accId : Option Int)
    (F : Int → MatchDetail) (hF : ∀ i, up.detail i = Except.ok (F i)) :
    ∀ (tail : List HistoryPage) (p0 pextra : HistoryPage)
      (rest : List HistoryPage) (remaining : Int) (fuel : Nat),
      0 < remaining →
      stopsAtEnd (p0 :: tail) = true →
      (∀ p ∈ p0 :: tail, p.«matches» ≠ []) →
      tail.length + 1 ≤ fuel →
      batchLoop up accId fuel p0 remaining (tail ++ pextra :: rest) =
        { result := Except.ok
            ((((p0 :: tail).map HistoryPage.«matches»).flatten).map
              (fun m => F m.match_id)),
          histReqs := (p0 :: tail).map (nextReq accId),
          detailReqs := (((p0 :: tail).map HistoryPage.«matches»).flatten).map
            MatchSummary.match_id,
          pagesLeft := rest }
  | [], p0, pextra, rest, remaining, fuel, hrem, hstop, hne, hfuel => by
      have hstop0 : p0.results_remaining ≤ 0 := by
        simpa [stopsAtEnd] using hstop
      have hne0 : p0.«matches» ≠ [] := hne p0 (List.mem_cons_self _ _)
      cases fuel with
      | zero => omega
      | succ f =>
        obtain ⟨lastM, hL⟩ : ∃ lastM, p0.«matches».getLast? = some lastM := by
          cases hc : p0.«matches».getLast? with
          | none => exact absurd (List.getLast?_eq_none_iff.mp hc) hne0
          | some x => exact ⟨x, rfl⟩
        rw [batchLoop.eq_def]
        rw [if_neg (by omega)]
        simp only [detailLoop_ok up F hF, hL, List.nil_append]
        rw [batchLoop.eq_def]
        rw [if_pos hstop0]
        simp [nextReq, hL, Except.map]
  | p1 :: tail', p0, pextra, rest, remaining, fuel, hrem, hstop, hne, hfuel => by
      have hsplit : 0 < p0.results_remaining ∧
          stopsAtEnd (p1 :: tail') = true := by
        have := hstop
        simp only [stopsAtEnd, Bool.and_eq_true, decide_eq_true_eq] at this
        exact this
      have hne0 : p0.«matches» ≠ [] := hne p0 (List.mem_cons_self _ _)
      cases fuel with
      | zero => omega
      | succ f =>
        obtain ⟨lastM, hL⟩ : ∃ lastM, p0.«matches».getLast? = some lastM := by
          cases hc : p0.«matches».getLast? with
          | none => exact absurd (List.getLast?_eq_none_iff.mp hc) hne0
          | some x => exact ⟨x, rfl⟩
        have ih := batchLoop_script up accId F hF tail' p1 pextra rest
          p0.results_remaining f hsplit.1 hsplit.2
          (fun p hp => hne p (List.mem_cons_of_mem _ hp)) (by
            have := hfuel
            simp only [List.length_cons] at this ⊢
            omega)
        rw [batchLoop.eq_def]
        rw [if_neg (by omega)]
        simp only [detailLoop_ok up F hF, hL, List.cons_append]
        rw [ih]
        simp [nextReq, hL, Except.map]

/-! ### Claim C6 (amended) -/

/-- Claim C6 (amended): for every scripted sequence of pages in which
`results_remaining` stays positive until it reaches 0 at the last processed
page, PROVIDED every processed page has at least one match (an empty page
raises IndexError instead, see the counterexample), all detail fetches
succeed, the one extra page request the final iteration issues is answered,
and the fuel covers the iterations, the batch walk terminates right after
the page whose `results_remaining` is 0 and returns exactly the details of
the processed pages. -/
theorem C6_terminates_on_zero_remaining (up : Upstream) (accId : Option Int)
    (heroId : Option Int) (F : Int → MatchDetail)
    (hF : ∀ i, up.detail i = Except.ok (F i))
    (p0 pextra : HistoryPage) (tail rest : List HistoryPage) (fuel : Nat)
    (htot : 0 < p0.total_results)
    (hstop : stopsAtEnd (p0 :: tail) = true)
    (hne : ∀ p ∈ p0 :: tail, p.«matches» ≠ [])
    (hfuel : tail.length + 1 ≤ fuel) :
    (getAllMatchHistoryInBatches up accId none heroId
        (p0 :: (tail ++ pextra :: rest)) fuel).result =
      Except.ok ((((p0 :: tail).map HistoryPage.«matches»).flatten).map
        (fun m => F m.match_id)) := by
  simp only [getAllMatchHistoryInBatches]
  rw [batchLoop_script up accId F hF tail p0 pextra rest p0.total_results fuel
    htot hstop hne hfuel]

/-- A first processed page with one summary and one page still to come. -/
def wp0 : HistoryPage :=
  { «matches» := [{ match_id := 30 }], total_results := 2,
    results_remaining := 1, num_results := 1 }

/-- The final processed page: one summary, `results_remaining = 0`. -/
def wp1 : HistoryPage :=
  { «matches» := [{ match_id := 20 }], total_results := 2,
    results_remaining := 0, num_results := 1 }

/-- Witness for the amended C6 on a concrete two-page script: the walk stops
after the page with `results_remaining = 0` and returns both details. -/
theorem C6_termination_witness :
    (getAllMatchHistoryInBatches upW (some 7) none none [wp0, wp1, pZero]
        5).result = Except.ok [detailF 30, detailF 20] := by
  have h := C6_terminates_on_zero_remaining upW (some 7) none detailF
    (fun i => rfl) wp0 pZero [wp1] [] 5 (by decide) (by decide) (by decide)
    (by decide)
  simpa [wp0, wp1, detailF] using h

/-! ### Claim C9 -/

/-- Claim C9: a successful batch walk that processes at least one page issues
one history request per processed page beyond the initial one — in
particular, exactly one further page request after the final processed page
(the one whose `results_remaining` is 0) — and the matches of that extra,
never-processed page are not detail-fetched and do not appear in the
returned result sequence, which consists of exactly the processed pages'
details. -/
theorem C9_one_extra_page_request (up : Upstream) (accId : Option Int)
    (heroId : Option Int) (F : Int → MatchDetail)
    (hF : ∀ i, up.detail i = Except.ok (F i))
    (p0 pextra : HistoryPage) (tail rest : List HistoryPage) (fuel : Nat)
    (htot : 0 < p0.total_results)
    (hstop : stopsAtEnd (p0 :: tail) = true)
    (hne : ∀ p ∈ p0 :: tail, p.«matches» ≠ [])
    (hfuel : tail.length + 1 ≤ fuel) :
    (getAllMatchHistoryInBatches up accId none heroId
        (p0 :: (tail ++ pextra :: rest)) fuel).histReqs.length =
      (p0 :: tail).length + 1 ∧
    (getAllMatchHistoryInBatches up accId none heroId
        (p0 :: (tail ++ pextra :: rest)) fuel).detailReqs =
      (((p0 :: tail).map HistoryPage.«matches»).flatten).map
        MatchSummary.match_id ∧
    (getAllMatchHistoryInBatches up accId none heroId
        (p0 :: (tail ++ pextra :: rest)) fuel).result =
      Except.ok ((((p0 :: tail).map HistoryPage.«matches»).flatten).map
        (fun m => F m.match_id)) ∧
    (∀ m ∈ pextra.«matches»,
      m.match_id ∉ (((p0 :: tail).map HistoryPage.«matches»).flatten).map
        MatchSummary.match_id →
      m.match_id ∉ (getAllMatchHistoryInBatches up accId none heroId
        (p0 :: (tail ++ pextra :: rest)) fuel).detailReqs) := by
  simp only [getAllMatchHistoryInBatches]
  rw [batchLoop_script up accId F hF tail p0 pextra rest p0.total_results fuel
    htot hstop hne hfuel]
  refine ⟨by simp, rfl, rfl, ?_⟩
  intro m hm hnotin
  simpa using hnotin

/-- Witness for C9 on the concrete two-page script: three history requests
for two processed pages, and details requested exactly for the two processed
summaries, none for the extra fetched page. -/
theorem C9_extra_request_witness :
    (getAllMatchHistoryInBatches upW (some 7) none none [wp0, wp1, pZero]
        5).histReqs.length = 3 ∧
    (getAllMatchHistoryInBatches upW (some 7) none none [wp0, wp1, pZero]
        5).detailReqs = [30, 20] := by
  have h := C9_one_extra_page_request upW (some 7) none detailF
    (fun i => rfl) wp0 pZero [wp1] [] 5 (by decide) (by decide) (by decide)
    (by decide)
  exact ⟨by simpa using h.1, by simpa [wp0, wp1] using h.2.1⟩

/-! ### Claim C5 (amended) -/

/-- Claim C5 (amended): for every non-empty page processed during a complete
batch walk, the cursor of the next page request equals the LAST listed
match_id of that page minus 1 (the source reads `hist['matches'][-1]`, not
the minimum); consequently, whenever a page lists its oldest match last — in
particular when pages are sorted newest-first, making the last element the
minimum — each successive page request's cursor is strictly less than every
match_id of the previous page, hence than its minimum. -/
theorem C5_cursor_is_last_minus_one (up : Upstream) (accId : Option Int)
    (heroId : Option Int) (F : Int → MatchDetail)
    (hF : ∀ i, up.detail i = Except.ok (F i))
    (p0 pextra : HistoryPage) (tail rest : List HistoryPage) (fuel : Nat)
    (htot : 0 < p0.total_results)
    (hstop : stopsAtEnd (p0 :: tail) = true)
    (hne : ∀ p ∈ p0 :: tail, p.«matches» ≠ [])
    (hfuel : tail.length + 1 ≤ fuel) :
    (getAllMatchHistoryInBatches up accId none heroId
        (p0 :: (tail ++ pextra :: rest)) fuel).histReqs =
      { start_at_match_id := some 0, account_id := accId,
        hero_id := heroId } :: (p0 :: tail).map (nextReq accId) ∧
    (∀ p ∈ p0 :: tail, ∀ m ∈ p.«matches»,
      (p.«matches».getLast?.map MatchSummary.match_id).getD 0 ≤ m.match_id →
      (nextReq accId p).start_at_match_id.getD 0 < m.match_id) := by
  constructor
  · simp only [getAllMatchHistoryInBatches]
    rw [batchLoop_script up accId F hF tail p0 pextra rest p0.total_results
      fuel htot hstop hne hfuel]
  · intro p hp m hm hlast
    simp only [nextReq, Option.getD_some]
    omega

/-- A page sorted newest-first: the last listed id 29 is the minimum. -/
def wq0 : HistoryPage :=
  { «matches» := [{ match_id := 31 }, { match_id := 29 }], total_results := 2,
    results_remaining := 0, num_results := 2 }

/-- Witness for the amended C5 on a concrete descending page: the next-page
request uses cursor 28 = 29 - 1, strictly below both listed ids. -/
theorem C5_cursor_witness :
    (getAllMatchHistoryInBatches upW (some 7) none none [wq0, pZero]
        5).histReqs =
      [{ start_at_match_id := some 0, account_id := some 7, hero_id := none },
       { start_at_match_id := some 28, account_id := some 7,
         hero_id := none }] ∧
    (nextReq (some 7) wq0).start_at_match_id.getD 0 < 29 := by
  have h := C5_cursor_is_last_minus_one upW (some 7) none detailF
    (fun i => rfl) wq0 pZero [] [] 5 (by decide) (by decide) (by decide)
    (by decide)
  constructor
  · have h1 := h.1
    simpa [wq0, nextReq] using h1
  · exact h.2 wq0 (by decide) { match_id := 29 } (by decide) (by decide)

end Dota2Api
